import Mathlib

/-
Verification of the mcp-pyodide sandbox execution engine.

The definitions below are a shallow embedding of the PyodideManager class
and its helpers (initialize, mountDirectory, executePython, installPackage,
runCode) together with the worker race used for timeouts.  External effects
(loadPyodide, the package index, wheel downloads, the interpreter itself,
worker events) are passed in as explicit oracle parameters, so every
definition is executable on concrete inputs.
-/

namespace Sandbox

/-! String helpers mirroring the JavaScript string operations used by the
source: includes (substring test), startsWith under a regex anchor,
split(" "), trim. -/

/-- JavaScript String.prototype.includes: substring containment. -/
def strIncludes (s pat : String) : Bool := decide (pat.toList <:+: s.toList)

/-- Anchored match at the start of the string, as the regex anchor does. -/
def strStartsWith (s pat : String) : Bool := decide (pat.toList <+: s.toList)

/-- JavaScript String.prototype.split with a one-character separator. -/
def splitChar (sep : Char) : List Char → List (List Char)
  | [] => [[]]
  | c :: rest =>
    let r := splitChar sep rest
    if c = sep then [] :: r
    else
      match r with
      | [] => [[c]]
      | h :: t => (c :: h) :: t

/-- JavaScript String.prototype.trim on a character list. -/
def jsTrimList (l : List Char) : List Char :=
  ((l.dropWhile Char.isWhitespace).reverse.dropWhile Char.isWhitespace).reverse

/-- The package-name parsing done by installPackage:
packageName.split(" ").map(trim).filter(Boolean). -/
def parsePackages (s : String) : List String :=
  (((splitChar ' ' s.toList).map jsTrimList).map List.asString).filter (fun p => p ≠ "")

/-! Call-tool results. -/

/-- Modelled from the spec: the formatters module referenced as
formatCallToolSuccess / formatCallToolError is not among the provided
sources; section 6 of the spec renders a success as a text content object
and a failure as an error-content object, so a result is modelled as an
error flag together with the rendered text. -/
structure CallToolResult where
  isError : Bool
  text : String
deriving DecidableEq, Repr

def formatCallToolSuccess (t : String) : CallToolResult := ⟨false, t⟩

def formatCallToolError (t : String) : CallToolResult := ⟨true, t⟩

/-! The runtime state of one PyodideManager and its interpreter handle. -/

/-- The six network primitives intercepted by the security policy:
the two host-bridge globals replaced via jsglobals, and the four Python
standard-library entry points monkey-patched by the bootstrap script. -/
inductive NetPrimitive
  | fetch
  | xmlHttpRequest
  | urlopen
  | createConnection
  | socketCtor
  | gethostbyname
deriving DecidableEq, Repr

/-- What a network primitive currently does: the real operation, the
rejecting JavaScript stub, or the raising Python replacement. -/
inductive NetHandler
  | native
  | blockedJs
  | blockedPython
deriving DecidableEq, Repr

/-- Outcome of invoking a network primitive with some arguments. -/
inductive InvokeOutcome
  | raised (msg : String)
  | networkAttempted
deriving DecidableEq, Repr

/-- Invoking a primitive: the blocked replacements ignore their arguments
and raise unconditionally, with the error text the source installs. -/
def invokeNet : NetHandler → List String → InvokeOutcome
  | .native, _ => .networkAttempted
  | .blockedJs, _ => .raised "Error: Network access disabled"
  | .blockedPython, _ => .raised "RuntimeError: Network access disabled"

/-- The interpreter handle produced by loadPyodide: its network primitive
table, whether the js back-reference was erased, and whether the private
tmp directory was created. -/
structure PyHandle where
  net : NetPrimitive → NetHandler
  jsErased : Bool
  tmpCreated : Bool

/-- Network table right after loadPyodide: the jsglobals option already
replaces fetch and XMLHttpRequest with rejecting stubs, the Python
primitives are still native. -/
def loadedNet : NetPrimitive → NetHandler
  | .fetch => .blockedJs
  | .xmlHttpRequest => .blockedJs
  | _ => .native

/-- Network table after the bootstrap script has monkey-patched
urllib.request.urlopen, socket.create_connection, socket.socket and
socket.gethostbyname. -/
def patchedNet : NetPrimitive → NetHandler
  | .fetch => .blockedJs
  | .xmlHttpRequest => .blockedJs
  | _ => .blockedPython

/-- Mutable state of one PyodideManager instance. -/
structure MgrState where
  sessionId : String
  pyodide : Option PyHandle
  loadCount : Nat
  mountPoints : List (String × String)
  basePath : String

/-- A freshly constructed manager for a session. -/
def initState (sessionId : String) : MgrState :=
  { sessionId := sessionId, pyodide := none, loadCount := 0,
    mountPoints := [], basePath := "/mnt" }

/-- Oracle for the external effects of the setup sequence, in source
order: loadPyodide, globals.set of js to undefined, the pre-install pass
of the unguarded variant, the bootstrap patch script, FS.mkdirTree of
tmp. -/
structure InitEnv where
  loadPyodide : Except String Unit
  globalsSet : Except String Unit
  preinstall : Except String Unit
  bootstrap : Except String Unit
  mkdirTmp : Except String Unit

/-- The guarded initialize of PyodideManager (part_001 lines 152-236 and
the second pyodide-manager.ts variant): returns true at once when the
handle is already set; otherwise performs the setup steps in order,
returning false as soon as one fails.  Note that the handle is assigned
directly after loadPyodide succeeds, before the remaining steps run. -/
def initSandbox (env : InitEnv) (s : MgrState) : Bool × MgrState :=
  if s.pyodide.isSome then (true, s)
  else
    match env.loadPyodide with
    | .error _ => (false, s)
    | .ok _ =>
      let s1 := { s with pyodide := some ⟨loadedNet, false, false⟩,
                         loadCount := s.loadCount + 1 }
      match env.globalsSet with
      | .error _ => (false, s1)
      | .ok _ =>
        let s2 := { s1 with pyodide := some ⟨loadedNet, true, false⟩ }
        match env.bootstrap with
        | .error _ => (false, s2)
        | .ok _ =>
          let s3 := { s2 with pyodide := some ⟨patchedNet, true, false⟩ }
          match env.mkdirTmp with
          | .error _ => (false, s3)
          | .ok _ => (true, { s3 with pyodide := some ⟨patchedNet, true, true⟩ })

/-- The first initialize variant of pyodide-manager.ts (lines 141-232):
identical setup but with no already-initialized guard, and with the
pre-install pass and the replacement of installPackage before the
bootstrap script. -/
def initNoGuard (env : InitEnv) (s : MgrState) : Bool × MgrState :=
  match env.loadPyodide with
  | .error _ => (false, s)
  | .ok _ =>
    let s1 := { s with pyodide := some ⟨loadedNet, false, false⟩,
                       loadCount := s.loadCount + 1 }
    match env.globalsSet with
    | .error _ => (false, s1)
    | .ok _ =>
      let s2 := { s1 with pyodide := some ⟨loadedNet, true, false⟩ }
      match env.preinstall with
      | .error _ => (false, s2)
      | .ok _ =>
        match env.bootstrap with
        | .error _ => (false, s2)
        | .ok _ =>
          let s3 := { s2 with pyodide := some ⟨patchedNet, true, false⟩ }
          match env.mkdirTmp with
          | .error _ => (false, s3)
          | .ok _ => (true, { s3 with pyodide := some ⟨patchedNet, true, true⟩ })

/-! Mount validation. -/

/-- The deny regex of mountDirectory.  The alternation anchors only the
etc arm; the root arm matches anywhere and the traversal arm matches any
two consecutive dots, with the trailing slash optional. -/
def regexCheck (p : String) : Bool :=
  strStartsWith p "/etc" || strIncludes p "/root" || strIncludes p ".."

/-- The validation rule as the spec words it: resolved path matching an
anchored etc, an anchored root, or containing a traversal segment.  Kept
separate from regexCheck so the two can be compared. -/
def specMountRule (p : String) : Bool :=
  strStartsWith p "/etc" || strStartsWith p "/root" || strIncludes p "../"

/-- mountDirectory of pyodide-manager.ts lines 778-809: resolve the host
path extended with the session id, test the deny regex against both the
resolved path and the configured base host path, and only then create the
host directory and the sandbox bind.  The resolve oracle stands for
path.resolve; the fsOk flag stands for the host filesystem and sandbox
FS calls of the success path, whose failure is caught and becomes false. -/
def mountDirectory (resolve : String → String) (fsOk : Bool) (s : MgrState)
    (name hostPath : String) : Bool × MgrState :=
  if s.pyodide.isNone then (false, s)
  else
    let abs := resolve (hostPath ++ "/" ++ s.sessionId)
    if regexCheck abs || regexCheck hostPath then (false, s)
    else if !fsOk then (false, s)
    else
      let mountPoint := s.basePath ++ "/" ++ s.sessionId ++ "/" ++ name
      (true, { s with mountPoints := s.mountPoints ++ [(mountPoint, abs)] })

/-! Script execution. -/

/-- executePython (part_001 lines 382-408): the not-initialized guard,
the micropip token guard, then the interpreter run under output capture.
The interp oracle returns the stringified expression result and the
captured stdout, or the raised error text; the cleanup calls after a
successful run are folded into the oracle.  The second component records
whether the interpreter was consulted at all. -/
def executePython (interp : String → Except String (String × String))
    (s : MgrState) (code : String) : CallToolResult × Bool :=
  if s.pyodide.isNone then (formatCallToolError "Pyodide not initialized", false)
  else if strIncludes code "micropip" then
    (formatCallToolError "Package installation disabled", false)
  else
    match interp code with
    | .error e => (formatCallToolError e, true)
    | .ok (res, out) =>
      (formatCallToolSuccess
        (if out == "" then res
         else "Output:\n" ++ out ++ "\nResult:\n" ++ res), true)

/-- Interpreter oracle for a script whose effect is to invoke one network
primitive of the patched table with the given arguments. -/
def netInterp (h : PyHandle) (prim : NetPrimitive) (args : List String) :
    String → Except String (String × String) := fun _ =>
  match invokeNet (h.net prim) args with
  | .raised m => .error m
  | .networkAttempted => .ok ("None", "")

/-- The error text each blocked primitive raises after initialization. -/
def netRaiseMsg : NetPrimitive → String
  | .fetch => "Error: Network access disabled"
  | .xmlHttpRequest => "Error: Network access disabled"
  | _ => "RuntimeError: Network access disabled"

/-! Package installation. -/

/-- The pre-installed package allow-list of PyodideManager. -/
def preInstalledPackages : List String :=
  ["numpy", "scipy", "sympy", "matplotlib", "seaborn", "plotly", "os",
   "pathlib", "pandas", "markdown", "mistune", "PyPDF2", "reportlab"]

/-- Oracles for the external effects of package installation: the native
loader, the package index query, the wheel download, and the in-sandbox
micropip install. -/
structure InstallEnv where
  loadPackage : String → Except String Unit
  getWheelUrl : String → Except String String
  downloadWheel : String → Except String Unit
  micropipInstall : String → Except String String

/-- The wheel-fallback pipeline shared by the two catch blocks of
installPackage: query the index, download the wheel, copy it into the
sandbox filesystem and install it through micropip.  Returns the output
log so far and the raised error text if a step threw. -/
def fallbackRun (env : InstallEnv) (pkg : String) (outputs : List String)
    (successMsg : String → String) : List String × Option String :=
  match env.getWheelUrl pkg with
  | .error e => (outputs, some e)
  | .ok _ =>
    let outputs := outputs ++ ["Downloading wheel for " ++ pkg ++ "..."]
    match env.downloadWheel pkg with
    | .error e => (outputs, some e)
    | .ok _ =>
      match env.micropipInstall pkg with
      | .error e => (outputs, some e)
      | .ok out => (outputs ++ [successMsg out], none)

/-- One iteration of the per-package loop of installPackage (part_001
lines 430-548).  The inner catch first loads micropip and then runs the
fallback; if anything in it throws, control reaches the per-package catch,
which logs and runs the fallback again with no protection of its own, so
an error there (the some result) propagates out of the loop. -/
def installOne (env : InstallEnv) (pkg : String) (outputs : List String) :
    List String × Option String :=
  let outputs := outputs ++ ["Attempting to install " ++ pkg ++ " using loadPackage..."]
  match env.loadPackage pkg with
  | .ok _ => (outputs ++ ["Successfully installed " ++ pkg ++ " using loadPackage."], none)
  | .error e =>
    let outputs := outputs ++
      ["loadPackage failed for " ++ pkg ++ ": " ++ e,
       "Falling back to micropip for " ++ pkg ++ "..."]
    let step :=
      match env.loadPackage "micropip" with
      | .error me => (outputs, some ("Failed to load micropip: " ++ me))
      | .ok _ =>
        fallbackRun env pkg outputs
          (fun out => "Successfully installed " ++ pkg ++ " using micropip: " ++ out)
    match step with
    | (outputs2, none) => (outputs2, none)
    | (outputs2, some err) =>
      let outputs3 := outputs2 ++
        ["loadPackage failed for " ++ pkg ++ ": " ++ err,
         "Falling back to micropip..."]
      fallbackRun env pkg outputs3
        (fun out => "Installed " ++ pkg ++ " using micropip: " ++ out)

/-- The for loop of installPackage.  Returns the packages whose
installation was attempted, the output log, and the error that escaped
the loop if one did. -/
def installLoop (env : InstallEnv) :
    List String → List String → List String →
    List String × List String × Option String
  | [], attempted, outputs => (attempted, outputs, none)
  | pkg :: rest, attempted, outputs =>
    let attempted := attempted ++ [pkg]
    match installOne env pkg outputs with
    | (outputs2, none) => installLoop env rest attempted outputs2
    | (outputs2, some err) => (attempted, outputs2, some err)

/-- Result of one installPackage call: the returned call-tool result and
the packages whose installation was attempted. -/
structure InstallRun where
  result : CallToolResult
  attempted : List String
deriving DecidableEq, Repr

/-- installPackage (part_001 lines 418-553): the thrown not-initialized
guard sits outside the try, so it surfaces as a rejected promise (the
error case); everything else is caught and converted into a call-tool
result.  Package names are split on spaces, trimmed, filtered to the
allow-list, then processed by the loop; an error escaping the loop is
rendered by the function-level catch and the accumulated log is dropped. -/
def installPackage (env : InstallEnv) (s : MgrState) (packageName : String) :
    Except String InstallRun :=
  if s.pyodide.isNone then .error "Pyodide not initialized"
  else
    let packages := parsePackages packageName
    if packages.length == 0 then
      .ok { result := formatCallToolError "No valid package names", attempted := [] }
    else
      let permitted := packages.filter (fun p => preInstalledPackages.contains p)
      match installLoop env permitted [] [] with
      | (attempted, outputs, none) =>
        .ok { result := formatCallToolSuccess (String.intercalate "\n\n" outputs),
              attempted := attempted }
      | (attempted, _, some err) =>
        .ok { result := formatCallToolError err, attempted := attempted }

/-! The worker race of runCode. -/

/-- Events a worker can deliver to the parent thread. -/
inductive WorkerEvent
  | message (cmd : String) (result : CallToolResult)
  | errorEv (msg : String)
  | exitEv (code : Nat)
deriving DecidableEq, Repr

/-- Whether an event settles the promise of runCode: a message settles
only when its cmd field is response, an error always settles, an exit
settles only when the exit code is nonzero. -/
def settling : WorkerEvent → Bool
  | .message cmd _ => cmd == "response"
  | .errorEv _ => true
  | .exitEv c => decide (c ≠ 0)

/-- A settled promise: fulfilled with a value or rejected with an error. -/
inductive SettledValue
  | content (r : CallToolResult)
  | errObj (msg : String)
deriving DecidableEq, Repr

inductive Settlement
  | fulfilled (v : SettledValue)
  | rejected (msg : String)
deriving DecidableEq, Repr

/-- How a settling worker event settles the promise, following the three
handlers registered by runCode. -/
def settleEvent : WorkerEvent → Settlement
  | .message _ r => .fulfilled (.content r)
  | .errorEv m => .rejected m
  | .exitEv c => .rejected ("Worker stopped with exit code: " ++ toString c)

/-- The race of runCode over a chronological list of timed worker events:
the first settling event strictly before the timer wins; otherwise the
timer fires at the timeout and resolves an Error object. -/
def raceSettle (events : List (Nat × WorkerEvent)) (timeout : Nat) :
    Nat × Settlement :=
  match events with
  | [] => (timeout, .fulfilled (.errObj "Timeout error"))
  | te :: rest =>
    if decide (te.1 < timeout) && settling te.2 then (te.1, settleEvent te.2)
    else raceSettle rest timeout

/-- Observable outcome of one runCode call. -/
structure RunCodeOutcome where
  settleTime : Nat
  settlement : Settlement
  terminated : Bool
deriving DecidableEq, Repr

/-- runCode (part_001 lines 345-380): await the race, then terminate the
worker in the finally block on both the return path and the throw path. -/
def runCode (events : List (Nat × WorkerEvent)) (timeout : Nat) : RunCodeOutcome :=
  let r := raceSettle events timeout
  match r.2 with
  | .fulfilled v => { settleTime := r.1, settlement := .fulfilled v, terminated := true }
  | .rejected m => { settleTime := r.1, settlement := .rejected m, terminated := true }

/-! Concrete oracles used by witnesses and counterexamples. -/

/-- Setup oracle in which every external step succeeds. -/
def envOk : InitEnv :=
  { loadPyodide := .ok (), globalsSet := .ok (), preinstall := .ok (),
    bootstrap := .ok (), mkdirTmp := .ok () }

/-- Setup oracle in which loadPyodide itself fails. -/
def envLoadFail : InitEnv :=
  { envOk with loadPyodide := .error "loadPyodide failed" }

/-- Setup oracle in which loadPyodide succeeds but the bootstrap patch
script throws. -/
def envBootFail : InitEnv :=
  { envOk with bootstrap := .error "bootstrap failed" }

/-- A manager that completed the guarded setup successfully. -/
def readyState : MgrState := (initSandbox envOk (initState "sess")).2

/-- Install oracle for a package whose native load fails and whose wheel
fallback fails deterministically: micropip itself loads, but the package
index offers no compatible wheel, on the first attempt and on the retry. -/
def c5Env : InstallEnv :=
  { loadPackage := fun p => if p == "micropip" then .ok () else .error "No known package with name",
    getWheelUrl := fun p => .error ("No compatible wheel for " ++ p),
    downloadWheel := fun _ => .ok (),
    micropipInstall := fun _ => .ok "" }

/-! Shared lemmas. -/

theorem strIncludes_iff {s pat : String} :
    strIncludes s pat = true ↔ pat.toList <:+: s.toList := by
  simp [strIncludes]

theorem strStartsWith_iff {s pat : String} :
    strStartsWith s pat = true ↔ pat.toList <+: s.toList := by
  simp [strStartsWith]

/-- Every path the spec rule rejects, the source regex also rejects. -/
theorem specMountRule_imp_regexCheck {p : String}
    (h : specMountRule p = true) : regexCheck p = true := by
  rcases Bool.or_eq_true_iff.mp h with h1 | h2
  · rcases Bool.or_eq_true_iff.mp h1 with he | hr
    · exact Bool.or_eq_true_iff.mpr (Or.inl (Bool.or_eq_true_iff.mpr (Or.inl he)))
    · refine Bool.or_eq_true_iff.mpr (Or.inl (Bool.or_eq_true_iff.mpr (Or.inr ?_)))
      exact strIncludes_iff.mpr (strStartsWith_iff.mp hr).isInfix
  · refine Bool.or_eq_true_iff.mpr (Or.inr ?_)
    have h3 : ("..".toList) <:+: ("../".toList) := by decide
    exact strIncludes_iff.mpr (h3.trans (strIncludes_iff.mp h2))

/-- After the bootstrap patch, invoking any network primitive raises the
fixed network-disabled error. -/
theorem invokeNet_patched (p : NetPrimitive) (args : List String) :
    invokeNet (patchedNet p) args = .raised (netRaiseMsg p) := by
  cases p <;> rfl

theorem netRaiseMsg_has_marker (p : NetPrimitive) :
    strIncludes (netRaiseMsg p) "Network access disabled" = true := by
  cases p <;> decide

/-- The race settles no later than the timer. -/
theorem raceSettle_time_le (events : List (Nat × WorkerEvent)) (timeout : Nat) :
    (raceSettle events timeout).1 ≤ timeout := by
  induction events with
  | nil => exact Nat.le_refl timeout
  | cons te rest ih =>
    by_cases hc : (decide (te.1 < timeout) && settling te.2) = true
    · have hlt : te.1 < timeout := of_decide_eq_true (Bool.and_elim_left hc)
      simp [raceSettle, hc]
      exact Nat.le_of_lt hlt
    · simpa [raceSettle, hc] using ih

/-- When no settling worker event arrives before the timer, the timer
branch wins and resolves the fixed Error object at the timeout. -/
theorem raceSettle_timer_wins (events : List (Nat × WorkerEvent)) (timeout : Nat)
    (h : ∀ te ∈ events, settling te.2 = true → timeout ≤ te.1) :
    raceSettle events timeout = (timeout, .fulfilled (.errObj "Timeout error")) := by
  induction events with
  | nil => rfl
  | cons te rest ih =>
    have hc : (decide (te.1 < timeout) && settling te.2) = false := by
      by_cases hs : settling te.2 = true
      · have := h te (List.mem_cons_self te rest) hs
        simp [hs, decide_eq_false (Nat.not_lt.mpr this)]
      · simp [Bool.eq_false_iff.mpr hs]
    rw [raceSettle, hc]
    exact ih (fun te2 hm hs => h te2 (List.mem_cons_of_mem te hm) hs)

/-- runCode rebuilt from the race result: the finally block marks the
worker terminated on both the fulfilled and the rejected path. -/
theorem runCode_eq (events : List (Nat × WorkerEvent)) (timeout : Nat) :
    runCode events timeout =
      ⟨(raceSettle events timeout).1, (raceSettle events timeout).2, true⟩ := by
  unfold runCode
  cases h : (raceSettle events timeout).2 <;> simp [h]

/-! Claim theorems. -/

/-- C1: after a successful initialize from the uninitialized state,
sandboxed code invoking any of the six intercepted network primitives —
fetch, XMLHttpRequest, urlopen, create_connection, socket, gethostbyname —
with any arguments and any target host yields an execution-result error
whose text contains the marker Network access disabled. -/
theorem c1_network_disabled_after_init
    (s : MgrState) (env : InitEnv) (prim : NetPrimitive) (args : List String)
    (code : String)
    (h0 : s.pyodide = none)
    (h1 : (initSandbox env s).1 = true)
    (hm : strIncludes code "micropip" = false) :
    ∃ hh m, (initSandbox env s).2.pyodide = some hh ∧
      executePython (netInterp hh prim args) (initSandbox env s).2 code =
        (formatCallToolError m, true) ∧
      strIncludes m "Network access disabled" = true := by
  cases hl : env.loadPyodide with
  | error e => simp [initSandbox, h0, hl] at h1
  | ok u =>
    cases hg : env.globalsSet with
    | error e => simp [initSandbox, h0, hl, hg] at h1
    | ok u2 =>
      cases hb : env.bootstrap with
      | error e => simp [initSandbox, h0, hl, hg, hb] at h1
      | ok u3 =>
        cases hk : env.mkdirTmp with
        | error e => simp [initSandbox, h0, hl, hg, hb, hk] at h1
        | ok u4 =>
          refine ⟨⟨patchedNet, true, true⟩, netRaiseMsg prim, ?_, ?_,
            netRaiseMsg_has_marker prim⟩
          · simp [initSandbox, h0, hl, hg, hb, hk]
          · simp [initSandbox, h0, hl, hg, hb, hk, executePython, hm,
              netInterp, invokeNet_patched, formatCallToolError]

/-- A concrete sandboxed script invoking a network primitive at localhost. -/
def netTestCode : String := "import socket\nsocket.create_connection((\"localhost\", 80))"

/-- Witness for C1: a fully successful setup, the socket connect primitive
and the localhost target. -/
theorem c1_network_disabled_after_init_witness :
    (initState "sess").pyodide = none ∧
    (initSandbox envOk (initState "sess")).1 = true ∧
    strIncludes netTestCode "micropip" = false ∧
    (∃ hh m, (initSandbox envOk (initState "sess")).2.pyodide = some hh ∧
      executePython (netInterp hh .createConnection ["localhost", "80"])
          (initSandbox envOk (initState "sess")).2 netTestCode =
        (formatCallToolError m, true) ∧
      strIncludes m "Network access disabled" = true) :=
  ⟨rfl, by decide, by decide,
   c1_network_disabled_after_init (initState "sess") envOk .createConnection
     ["localhost", "80"] netTestCode rfl (by decide) (by decide)⟩

/-- C2: mountDirectory returns false and creates no bind whenever the
validation rule of the spec matches either the resolved absolute host path
or the configured base host path. -/
theorem c2_mount_rejects_restricted
    (resolve : String → String) (fsOk : Bool) (s : MgrState)
    (name hostPath : String)
    (h : specMountRule (resolve (hostPath ++ "/" ++ s.sessionId)) = true ∨
         specMountRule hostPath = true) :
    mountDirectory resolve fsOk s name hostPath = (false, s) := by
  by_cases hp : s.pyodide.isNone
  · simp [mountDirectory, hp]
  · rcases h with h | h
    · simp [mountDirectory, hp, specMountRule_imp_regexCheck h]
    · simp [mountDirectory, hp, specMountRule_imp_regexCheck h]

/-- Witness for C2: mounting the root directory, the etc directory and a
traversal path are all rejected with the state unchanged. -/
theorem c2_mount_rejects_restricted_witness :
    specMountRule "/root" = true ∧
    mountDirectory id true readyState "data" "/root" = (false, readyState) ∧
    mountDirectory id true readyState "data" "/etc" = (false, readyState) ∧
    mountDirectory id true readyState "data" "../" = (false, readyState) :=
  ⟨by decide,
   c2_mount_rejects_restricted id true readyState "data" "/root" (Or.inr (by decide)),
   c2_mount_rejects_restricted id true readyState "data" "/etc" (Or.inr (by decide)),
   c2_mount_rejects_restricted id true readyState "data" "../" (Or.inr (by decide))⟩

/-- C3: the promise of runCode settles no later than the timer at the
timeout, with the fixed timeout Error when no settling worker event
arrived earlier, and the worker is terminated once the race settles on
every branch. -/
theorem c3_runCode_bounded_and_terminated
    (events : List (Nat × WorkerEvent)) (timeout : Nat) :
    (runCode events timeout).settleTime ≤ timeout ∧
    (runCode events timeout).terminated = true ∧
    ((∀ te ∈ events, settling te.2 = true → timeout ≤ te.1) →
      (runCode events timeout).settlement = .fulfilled (.errObj "Timeout error")) := by
  refine ⟨?_, ?_, ?_⟩
  · rw [runCode_eq]
    exact raceSettle_time_le events timeout
  · rw [runCode_eq]
  · intro h
    rw [runCode_eq, raceSettle_timer_wins events timeout h]

/-- Witness for C3 at a worker that never reports back. -/
theorem c3_runCode_bounded_and_terminated_witness :
    (runCode [] 7).settleTime ≤ 7 ∧
    (runCode [] 7).terminated = true ∧
    (runCode [] 7).settlement = .fulfilled (.errObj "Timeout error") := by
  have h := c3_runCode_bounded_and_terminated [] 7
  exact ⟨h.1, h.2.1, h.2.2 (fun te hm _ => absurd hm (List.not_mem_nil te))⟩

/-- C4: once the runtime is initialized, executePython rejects every code
string containing the micropip token with the package-installation-disabled
error result, without consulting the interpreter, whatever the interpreter
oracle would have done. -/
theorem c4_micropip_token_rejected
    (interp : String → Except String (String × String)) (s : MgrState)
    (code : String)
    (hinit : s.pyodide.isSome = true)
    (htok : strIncludes code "micropip" = true) :
    executePython interp s code =
      (formatCallToolError "Package installation disabled", false) := by
  cases hp : s.pyodide with
  | none => rw [hp] at hinit; simp at hinit
  | some h => simp [executePython, hp, htok]

/-- Witness for C4: a direct micropip install of an allow-listed package. -/
theorem c4_micropip_token_rejected_witness :
    readyState.pyodide.isSome = true ∧
    strIncludes "import micropip\nmicropip.install(\"numpy\")" "micropip" = true ∧
    executePython (fun _ => .ok ("None", "")) readyState
        "import micropip\nmicropip.install(\"numpy\")" =
      (formatCallToolError "Package installation disabled", false) :=
  ⟨by decide, by decide,
   c4_micropip_token_rejected (fun _ => .ok ("None", "")) readyState
     "import micropip\nmicropip.install(\"numpy\")" (by decide) (by decide)⟩

/-- C5: evaluating installPackage at a package whose native load and whose
wheel fallback both fail shows the loop aborting: the second package is
never attempted and the accumulated outcome log is dropped in favour of a
bare error result, contrary to the record-and-continue policy stated by
the spec and by the comment in the per-package catch itself. -/
theorem c5_double_failure_aborts_remaining :
    installPackage c5Env readyState "numpy pandas" =
      .ok { result := formatCallToolError "No compatible wheel for numpy",
            attempted := ["numpy"] } := by
  rfl

/-- C6 counterexample: the initialize variant without the
already-initialized guard returns true on both calls but repeats the full
setup, loading the interpreter a second time. -/
theorem c6_counterexample_no_guard_reinitializes :
    (initNoGuard envOk (initState "sess")).1 = true ∧
    ((initNoGuard envOk (initState "sess")).2).loadCount = 1 ∧
    (initNoGuard envOk ((initNoGuard envOk (initState "sess")).2)).1 = true ∧
    ((initNoGuard envOk ((initNoGuard envOk (initState "sess")).2)).2).loadCount = 2 :=
  ⟨rfl, rfl, rfl, rfl⟩

/-- C6 amended: the guarded initialize is idempotent — when the handle is
already set it returns true and leaves the state untouched, performing no
setup step. -/
theorem c6_guarded_idempotent (env : InitEnv) (s : MgrState)
    (h : s.pyodide.isSome = true) :
    initSandbox env s = (true, s) := by
  simp [initSandbox, h]

/-- Witness for the amended C6: a second guarded initialize after a
successful first one. -/
theorem c6_guarded_idempotent_witness :
    readyState.pyodide.isSome = true ∧
    initSandbox envOk readyState = (true, readyState) :=
  ⟨by decide, c6_guarded_idempotent envOk readyState (by decide)⟩

/-- C7 counterexample: when loadPyodide succeeds but the bootstrap patch
script fails, initialize returns false yet leaves the interpreter handle
assigned, and a retry returns true immediately without loading again — the
runtime is treated as initialized through a call that returned false. -/
theorem c7_counterexample_partial_failure_reaches_ready :
    (initSandbox envBootFail (initState "sess")).1 = false ∧
    ((initSandbox envBootFail (initState "sess")).2).pyodide.isSome = true ∧
    (initSandbox envOk ((initSandbox envBootFail (initState "sess")).2)).1 = true ∧
    ((initSandbox envOk ((initSandbox envBootFail (initState "sess")).2)).2).loadCount =
      ((initSandbox envBootFail (initState "sess")).2).loadCount :=
  ⟨rfl, rfl, rfl, rfl⟩

/-- C7 amended: a failed initialize leaves the runtime uninitialized and
the state untouched exactly when the failure is in loadPyodide itself,
before the handle is assigned. -/
theorem c7_load_failure_leaves_uninitialized (env : InitEnv) (s : MgrState)
    (hu : s.pyodide = none) (hf : ∃ m, env.loadPyodide = .error m) :
    initSandbox env s = (false, s) := by
  obtain ⟨m, hm⟩ := hf
  simp [initSandbox, hu, hm]

/-- Witness for the amended C7: a concrete failing loader. -/
theorem c7_load_failure_leaves_uninitialized_witness :
    (initState "sess").pyodide = none ∧
    (∃ m, envLoadFail.loadPyodide = .error m) ∧
    initSandbox envLoadFail (initState "sess") = (false, initState "sess") :=
  ⟨rfl, ⟨"loadPyodide failed", rfl⟩,
   c7_load_failure_leaves_uninitialized envLoadFail (initState "sess") rfl
     ⟨"loadPyodide failed", rfl⟩⟩

/-- C8 counterexample: a successful execution with empty captured stdout is
rendered as the bare stringified result, not in the Output and Result
format the claim states for every success. -/
theorem c8_counterexample_empty_output_plain_text :
    executePython (fun _ => .ok ("2", "")) readyState "1+1" =
      (formatCallToolSuccess "2", true) ∧
    "2" ≠ "Output:\n\nResult:\n2" :=
  ⟨rfl, by decide⟩

/-- C8 amended: a successful execution is rendered in the Output and
Result format exactly when the captured stdout is non-empty; with empty
stdout the text is the bare stringified result. -/
theorem c8_success_rendering
    (interp : String → Except String (String × String)) (s : MgrState)
    (code res out : String)
    (hinit : s.pyodide.isSome = true)
    (hm : strIncludes code "micropip" = false)
    (hr : interp code = .ok (res, out)) :
    executePython interp s code =
      (formatCallToolSuccess
        (if out == "" then res
         else "Output:\n" ++ out ++ "\nResult:\n" ++ res), true) := by
  cases hp : s.pyodide with
  | none => rw [hp] at hinit; simp at hinit
  | some h => simp [executePython, hp, hm, hr]

/-- Witness for the amended C8: a success with captured output in the
Output and Result format. -/
theorem c8_success_rendering_witness :
    readyState.pyodide.isSome = true ∧
    strIncludes "print(\"hi\")" "micropip" = false ∧
    executePython (fun _ => .ok ("None", "hi\n")) readyState "print(\"hi\")" =
      (formatCallToolSuccess "Output:\nhi\n\nResult:\nNone", true) := by
  refine ⟨by decide, by decide, ?_⟩
  have h := c8_success_rendering (fun _ => .ok ("None", "hi\n")) readyState
    "print(\"hi\")" "None" "hi\n" (by decide) (by decide) rfl
  simpa using h

/-- C9: a non-empty package list none of which is on the allow-list is
skipped entirely: no installation attempt, a success-shaped result, and an
empty aggregated output text. -/
theorem c9_unlisted_packages_skipped (env : InstallEnv) (s : MgrState)
    (name : String)
    (hinit : s.pyodide.isSome = true)
    (hne : parsePackages name ≠ [])
    (hall : ∀ p ∈ parsePackages name, p ∉ preInstalledPackages) :
    installPackage env s name =
      .ok { result := formatCallToolSuccess "", attempted := [] } := by
  cases hp : s.pyodide with
  | none => rw [hp] at hinit; simp at hinit
  | some h =>
    have hperm : (parsePackages name).filter
        (fun p => decide (p ∈ preInstalledPackages)) = [] :=
      List.filter_eq_nil_iff.mpr
        (fun a ha => by simpa using hall a ha)
    simp [installPackage, hp, hperm, installLoop, beq_iff_eq,
      List.length_eq_zero, hne, String.intercalate]

/-- Witness for C9: two packages absent from the allow-list. -/
theorem c9_unlisted_packages_skipped_witness :
    readyState.pyodide.isSome = true ∧
    parsePackages "requests flask" ≠ [] ∧
    (∀ p ∈ parsePackages "requests flask", p ∉ preInstalledPackages) ∧
    installPackage c5Env readyState "requests flask" =
      .ok { result := formatCallToolSuccess "", attempted := [] } :=
  ⟨by decide, by decide, by decide,
   c9_unlisted_packages_skipped c5Env readyState "requests flask"
     (by decide) (by decide) (by decide)⟩

/-- C10: when every settling worker event arrives at or after the timer,
the promise fulfills — it does not reject — and the fulfilled value is the
Error object with the Timeout error message, not a content object. -/
theorem c10_timeout_fulfills_error_object
    (events : List (Nat × WorkerEvent)) (timeout : Nat)
    (h : ∀ te ∈ events, settling te.2 = true → timeout ≤ te.1) :
    (runCode events timeout).settlement = .fulfilled (.errObj "Timeout error") ∧
    (∀ r, (runCode events timeout).settlement ≠ .fulfilled (.content r)) ∧
    (∀ m, (runCode events timeout).settlement ≠ .rejected m) := by
  rw [runCode_eq, raceSettle_timer_wins events timeout h]
  refine ⟨rfl, ?_, ?_⟩ <;> intro x hx <;> cases hx

/-- Witness for C10: a worker whose only settling event arrives after the
timer. -/
theorem c10_timeout_fulfills_error_object_witness :
    (runCode [(9, .errorEv "boom")] 5).settlement =
      .fulfilled (.errObj "Timeout error") ∧
    (∀ r, (runCode [(9, .errorEv "boom")] 5).settlement ≠ .fulfilled (.content r)) ∧
    (∀ m, (runCode [(9, .errorEv "boom")] 5).settlement ≠ .rejected m) :=
  c10_timeout_fulfills_error_object [(9, .errorEv "boom")] 5 (by decide)

end Sandbox
